import Mathlib

/-!
Verification of the `db_nexus` data-access layer (src/db_nexus): a shallow
embedding of the session lifecycle manager (`session.py`), the generic CRUD
repository (`repository.py`) and the exception taxonomy (`exceptions.py`),
together with theorems settling the specification claims about them.

Modelling decisions, in correspondence with the source:

* A committed store is a `List Record` in insertion order (rows come back in
  rowid/insertion order, matching the spec's ordering guarantee for
  `list_all`, which issues no ORDER BY).
* A SQLAlchemy `Session` (created with `autocommit=False, autoflush=False`)
  is a `SessionState`: the committed store it reads from, the records staged
  for insertion by `session.add`, and the keys staged for removal by
  `session.delete`.  Because `autoflush=False`, staged inserts are invisible
  to `session.get` and `session.query` before commit, while an object marked
  deleted in the session is reported as absent by `session.get`.
* Python exceptions become the inductive `Err`.  The code defines only
  `RepositoryError` and `RecordNotFoundError`; the constructors
  `transactionError` and `configurationError` exist solely to state the
  spec's taxonomy (spec §7) so that claims mentioning them can be compared
  with what the code actually raises.
* The context manager `DatabaseSessionManager.get_session` becomes
  `getSession`, a function of the scope body (which may finish normally or
  raise) and of a commit oracle saying whether the backend accepts the
  staged work at commit time.  It returns the caller-observed outcome, the
  final committed store and the trace of lifecycle events, so that ordering
  claims (rollback/commit before release, release exactly once) are
  statable.
-/

namespace DbNexus

/-- A record as the repository sees it: an opaque application-defined entity
with a primary-key attribute (`key`), an opaque payload standing for all other
columns, and its Python boolean evaluation (`truthy`).  Ordinary ORM instances
are truthy; an application model overriding `__bool__` may not be, which is
exactly the distinction `repository.py` line 48 (`if not record:`) is
sensitive to. -/
structure Record where
  key : Nat
  payload : Nat
  truthy : Bool
deriving Repr, DecidableEq

/-- Python truthiness of the value returned by `session.get`: `None` is falsy,
and an object is as truthy as its `__bool__` says. -/
def pyTruthy : Option Record → Bool
  | none => false
  | some r => r.truthy

/-- Exceptions that can cross the library boundary.  `recordNotFound` embeds
`RecordNotFoundError` from `exceptions.py`; `plainException` is Python's bare
`Exception` (raised by `create_all_tables`); `backendError` stands for an
opaque error raised by the backend or by user code inside a scope.
`transactionError` and `configurationError` are the spec's taxonomy (§7) —
`exceptions.py` defines no such classes, and they are included only so that
claims about them can be stated and compared with the code. -/
inductive Err where
  | recordNotFound (record_id : Nat)
  | plainException (msg : String)
  | backendError (code : Nat)
  | transactionError (code : Nat)
  | configurationError (msg : String)
deriving Repr, DecidableEq

/-- In the code's class hierarchy (`exceptions.py`), only
`RecordNotFoundError` is a `RepositoryError`; a bare `Exception` or a backend
error is not, and the spec-only classes do not exist in the code. -/
def Err.isRepositoryError : Err → Bool
  | .recordNotFound _ => true
  | _ => false

/-- Whether an error is the spec's `TransactionError` (§7).  No code path in
`src/db_nexus` constructs one. -/
def Err.isTransactionError : Err → Bool
  | .transactionError _ => true
  | _ => false

/-- Whether an error is the spec's `ConfigurationError` (§7).  No code path in
`src/db_nexus` constructs one. -/
def Err.isConfigurationError : Err → Bool
  | .configurationError _ => true
  | _ => false

/-- The message attached to an error, as formatted by the source.
`RecordNotFoundError.__init__` builds
`f"Registro com ID '{record_id}' não encontrado."`. -/
def Err.message : Err → String
  | .recordNotFound record_id =>
      "Registro com ID \x27" ++ toString record_id ++ "\x27 não encontrado."
  | .plainException msg => msg
  | .backendError code => "backend error " ++ toString code
  | .transactionError code => "transaction error " ++ toString code
  | .configurationError msg => msg

/-- The state of one SQLAlchemy session: the committed store it was opened
over, the records staged for insertion (`session.add`, in call order) and the
keys of records staged for removal (`session.delete`).  Nothing reaches the
committed store before `session.commit`. -/
structure SessionState where
  db : List Record
  added : List Record
  deleted : List Nat
deriving Repr, DecidableEq

/-- A fresh session over a committed store, as produced by the session
factory on scope entry: nothing staged. -/
def initSession (db : List Record) : SessionState :=
  { db := db, added := [], deleted := [] }

/-- `session.get(model, record_id)`: primary-key lookup.  With
`autoflush=False`, records staged for insertion are not yet visible, and an
object marked deleted in this session is reported as absent (`session.get`
returns `None` for identity-map entries marked deleted). -/
def sessionGet (s : SessionState) (record_id : Nat) : Option Record :=
  (s.db.filter (fun r => !(s.deleted.contains r.key))).find?
    (fun r => r.key == record_id)

/-- `BaseRepository.get_by_id` (`repository.py` lines 39–52): primary-key
lookup via `session.get`, then `if not record: raise
RecordNotFoundError(record_id)` — absence is decided by Python truthiness of
the looked-up value, and signalled by an error, never by a silent `None`. -/
def get_by_id (s : SessionState) (record_id : Nat) : Except Err Record :=
  let record := sessionGet s record_id
  match record with
  | none => Except.error (Err.recordNotFound record_id)
  | some r =>
      if r.truthy = false then Except.error (Err.recordNotFound record_id)
      else Except.ok r

/-- `BaseRepository.list_all` (`repository.py` lines 54–59):
`session.query(model).offset(skip).limit(limit).all()` — the committed rows in
insertion order, with the first `skip` dropped and at most `limit` kept.  The
source defaults are `skip=0, limit=100`; theorems pass them explicitly. -/
def list_all (s : SessionState) (skip limit : Nat) : List Record :=
  (s.db.drop skip).take limit

/-- `BaseRepository.add` (`repository.py` lines 61–71): `session.add(record)`
stages the record for insertion on the session and the same record is
returned; nothing is committed. -/
def add (s : SessionState) (record : Record) : SessionState × Record :=
  ({ s with added := s.added ++ [record] }, record)

/-- `BaseRepository.delete` (`repository.py` lines 73–81): look the record up
via `get_by_id` (so a failed lookup raises `RecordNotFoundError` and stages
nothing — the session is returned unchanged next to the error), then
`session.delete(record)` stages its removal.  Nothing is committed. -/
def delete (s : SessionState) (record_id : Nat) : SessionState × Option Err :=
  match get_by_id s record_id with
  | Except.error e => (s, some e)
  | Except.ok r => ({ s with deleted := s.deleted ++ [r.key] }, none)

/-- The effect of a successful `session.commit()` on the committed store:
staged removals are applied and staged inserts are appended in insertion
order. -/
def commitApply (s : SessionState) : List Record :=
  s.db.filter (fun r => !(s.deleted.contains r.key)) ++ s.added

/-- Lifecycle events of one scope, in the order `get_session` performs them:
session creation, commit success or failure, rollback, and
`session.close()` (the connection going back to the pool). -/
inductive Event where
  | created
  | committed
  | commitFailed
  | rolledBack
  | closed
deriving Repr, DecidableEq

/-- What the body of a `with` scope does with the session it is lent: finish
normally with a value and the mutated session, or raise an error, leaving the
session in whatever state it reached. -/
inductive BodyResult (α : Type) where
  | ok (a : α) (s : SessionState)
  | raised (e : Err) (s : SessionState)
deriving Repr

/-- Everything observable about one execution of a scope: what the caller
sees (the value, or the error propagating out of the `with`), the committed
store afterwards, and the trace of lifecycle events. -/
structure ScopeOutcome (α : Type) where
  result : Except Err α
  db : List Record
  trace : List Event
deriving Repr

/-- `DatabaseSessionManager.get_session` (`session.py` lines 48–87), run over
a scope body.  The shape follows the source exactly: a session is created by
the factory; the `try` block runs the body (`yield session`) and then
`session.commit()`; `except Exception` performs `session.rollback()` and
re-raises the caught error with a bare `raise` (so commit failures propagate
as themselves, and body errors propagate unchanged); `finally` always runs
`session.close()`.  `commitFails` is the backend's verdict on the staged work
at commit time (`none` = commit succeeds); a failed or rolled-back
transaction leaves the committed store as it was. -/
def getSession {α : Type} (db : List Record)
    (commitFails : SessionState → Option Err)
    (body : SessionState → BodyResult α) : ScopeOutcome α :=
  match body (initSession db) with
  | BodyResult.ok a s1 =>
      match commitFails s1 with
      | none =>
          { result := Except.ok a
            db := commitApply s1
            trace := [Event.created, Event.committed, Event.closed] }
      | some e =>
          { result := Except.error e
            db := db
            trace := [Event.created, Event.commitFailed, Event.rolledBack,
                      Event.closed] }
  | BodyResult.raised e _ =>
      { result := Except.error e
        db := db
        trace := [Event.created, Event.rolledBack, Event.closed] }

/-- The engine (connection pool) created by `create_engine`; only its
presence matters to the claims. -/
structure Engine where
  db_url : String
deriving Repr, DecidableEq

/-- `DatabaseSessionManager`'s configuration state: `_engine` is `some` once
the constructor has run and `none` in the never-constructed state that the
guard in `create_all_tables` tests for. -/
structure DatabaseSessionManager where
  engine : Option Engine
deriving Repr, DecidableEq

/-- The message of the bare `Exception` raised by `create_all_tables` when
the engine is missing. -/
def notInitMsg : String :=
  "Banco de dados não inicializado. Chame \x27__init__\x27 primeiro."

/-- `DatabaseSessionManager.create_all_tables` (`session.py` lines 89–99):
`if not self._engine: raise Exception(...)`, otherwise
`Base.metadata.create_all(bind=self._engine)` succeeds (table creation is a
backend side effect outside this model). -/
def create_all_tables (m : DatabaseSessionManager) : Except Err Unit :=
  match m.engine with
  | none => Except.error (Err.plainException notInitMsg)
  | some _ => Except.ok ()

/-- C1: for every scope body that raises an error, `get_session` rolls the
transaction back (the committed store is unchanged), re-raises the original
error unchanged (the caller observes the very same error value), and the
session is still closed afterwards (the trace ends with `closed`). -/
theorem getSession_rollback_reraise_close {α : Type} (db : List Record)
    (commitFails : SessionState → Option Err)
    (body : SessionState → BodyResult α) (e : Err) (s1 : SessionState)
    (h : body (initSession db) = BodyResult.raised e s1) :
    (getSession db commitFails body).result = Except.error e ∧
    (getSession db commitFails body).db = db ∧
    (getSession db commitFails body).trace
      = [Event.created, Event.rolledBack, Event.closed] := by
  simp [getSession, h]

theorem getSession_rollback_reraise_close_witness :
    (getSession ([] : List Record) (fun _ => none)
        (fun s => BodyResult.raised (α := Nat) (Err.backendError 3) s)).result
      = Except.error (Err.backendError 3) ∧
    (getSession ([] : List Record) (fun _ => none)
        (fun s => BodyResult.raised (α := Nat) (Err.backendError 3) s)).db
      = [] ∧
    (getSession ([] : List Record) (fun _ => none)
        (fun s => BodyResult.raised (α := Nat) (Err.backendError 3) s)).trace
      = [Event.created, Event.rolledBack, Event.closed] :=
  getSession_rollback_reraise_close [] (fun _ => none)
    (fun s => BodyResult.raised (Err.backendError 3) s)
    (Err.backendError 3) (initSession []) rfl

/-- C2: for every execution of a scope — body succeeds, body raises, or the
commit itself fails — the close (release) step appears exactly once in the
trace, it is the last event, and a commit or rollback event precedes it. -/
theorem getSession_close_once_after_settle {α : Type} (db : List Record)
    (commitFails : SessionState → Option Err)
    (body : SessionState → BodyResult α) :
    (getSession db commitFails body).trace.count Event.closed = 1 ∧
    (getSession db commitFails body).trace.getLast? = some Event.closed ∧
    ((getSession db commitFails body).trace.contains Event.committed
      ∨ (getSession db commitFails body).trace.contains Event.rolledBack) := by
  cases h : body (initSession db) with
  | ok a s1 =>
      cases hc : commitFails s1 with
      | none =>
          refine ⟨?_, ?_, Or.inl ?_⟩ <;> simp [getSession, h, hc]
      | some e =>
          refine ⟨?_, ?_, Or.inr ?_⟩ <;> simp [getSession, h, hc]
  | raised e s1 =>
      refine ⟨?_, ?_, Or.inr ?_⟩ <;> simp [getSession, h]

/-- C3 counterexample: a scope whose body finishes normally but whose commit
fails.  The caller observes the backend's own error (`backendError 7`),
unchanged — not a `TransactionError`: the code's `except Exception` clause
re-raises the caught commit error with a bare `raise`, and `exceptions.py`
defines no `TransactionError` at all. -/
theorem getSession_commit_failure_not_wrapped :
    (getSession ([] : List Record) (fun _ => some (Err.backendError 7))
        (fun s => BodyResult.ok 0 s)).result
      = Except.error (Err.backendError 7) ∧
    Err.isTransactionError (Err.backendError 7) = false := by
  exact ⟨rfl, rfl⟩

/-- C3 amended: for every scope whose body completes without raising,
`get_session` attempts the commit; if the backend accepts it the caller gets
the body's value and the staged work reaches the committed store, and if the
commit fails the failure is rolled back and propagates to the caller as the
original backend error, unchanged — not wrapped in a `TransactionError`,
which the code does not define. -/
theorem getSession_commit_on_success {α : Type} (db : List Record)
    (commitFails : SessionState → Option Err)
    (body : SessionState → BodyResult α) (a : α) (s1 : SessionState)
    (h : body (initSession db) = BodyResult.ok a s1) :
    (commitFails s1 = none →
      (getSession db commitFails body).result = Except.ok a ∧
      (getSession db commitFails body).db = commitApply s1 ∧
      (getSession db commitFails body).trace
        = [Event.created, Event.committed, Event.closed]) ∧
    (∀ e : Err, commitFails s1 = some e →
      (getSession db commitFails body).result = Except.error e ∧
      (getSession db commitFails body).db = db ∧
      (getSession db commitFails body).trace
        = [Event.created, Event.commitFailed, Event.rolledBack,
           Event.closed]) := by
  constructor
  · intro hc
    simp [getSession, h, hc]
  · intro e hc
    simp [getSession, h, hc]

theorem getSession_commit_on_success_witness :
    (getSession ([⟨1, 10, true⟩] : List Record) (fun _ => none)
        (fun s => BodyResult.ok 5 s)).result = Except.ok 5 ∧
    (getSession ([⟨1, 10, true⟩] : List Record) (fun _ => none)
        (fun s => BodyResult.ok 5 s)).db
      = commitApply (initSession [⟨1, 10, true⟩]) ∧
    (getSession ([⟨1, 10, true⟩] : List Record) (fun _ => none)
        (fun s => BodyResult.ok 5 s)).trace
      = [Event.created, Event.committed, Event.closed] :=
  (getSession_commit_on_success [⟨1, 10, true⟩] (fun _ => none)
      (fun s => BodyResult.ok 5 s) 5 (initSession [⟨1, 10, true⟩]) rfl).1 rfl

/-- C9 counterexample: invoked on a manager whose engine is absent,
`create_all_tables` raises Python's bare `Exception` with the
not-initialized message — which is not a `ConfigurationError` (the code
defines no such class) and not even one of the library's own
`RepositoryError` exceptions. -/
theorem create_all_tables_not_configuration_error :
    create_all_tables { engine := none } =
      Except.error (Err.plainException notInitMsg) ∧
    Err.isConfigurationError (Err.plainException notInitMsg) = false ∧
    Err.isRepositoryError (Err.plainException notInitMsg) = false :=
  ⟨rfl, rfl, rfl⟩

/-- C9 amended: if `create_all_tables` is invoked before the connection pool
exists, it fails — but with a plain built-in `Exception` carrying the
not-initialized message, not with a `ConfigurationError` (no such class is
defined anywhere in the code). -/
theorem create_all_tables_requires_engine (m : DatabaseSessionManager)
    (h : m.engine = none) :
    create_all_tables m = Except.error (Err.plainException notInitMsg) := by
  simp [create_all_tables, h]

theorem create_all_tables_requires_engine_witness :
    create_all_tables { engine := none } =
      Except.error (Err.plainException notInitMsg) :=
  create_all_tables_requires_engine { engine := none } rfl

/-- Unfolding of a successful primary-key lookup: when the session reports a
record and that record is truthy, `get_by_id` returns it and its key is the
requested one. -/
theorem get_by_id_of_sessionGet_some {s : SessionState} {record_id : Nat}
    {r : Record} (h : sessionGet s record_id = some r)
    (ht : r.truthy = true) :
    get_by_id s record_id = Except.ok r ∧ r.key = record_id := by
  constructor
  · simp [get_by_id, h, ht]
  · have h' := h
    simp only [sessionGet] at h'
    simpa using List.find?_some h'

/-- C4 counterexample: a record with key 1 is present in the store (the
session's primary-key lookup returns it) yet `get_by_id` raises
`RecordNotFoundError(1)`, because the record evaluates as boolean-false and
the source tests `if not record:`. -/
theorem get_by_id_present_falsy_raises :
    sessionGet (initSession [⟨1, 10, false⟩]) 1 = some ⟨1, 10, false⟩ ∧
    get_by_id (initSession [⟨1, 10, false⟩]) 1
      = Except.error (Err.recordNotFound 1) :=
  ⟨rfl, rfl⟩

/-- C4 amended: if a record with the requested key is present in the store
and evaluates truthy (the default for ORM instances), `get_by_id` returns a
record whose key equals the requested id; if no record is present, it raises
`RecordNotFoundError` carrying that id, never a silent empty value. -/
theorem get_by_id_found_or_raises (s : SessionState) (record_id : Nat) :
    (∀ r : Record, sessionGet s record_id = some r → r.truthy = true →
      get_by_id s record_id = Except.ok r ∧ r.key = record_id) ∧
    (sessionGet s record_id = none →
      get_by_id s record_id = Except.error (Err.recordNotFound record_id)) := by
  constructor
  · intro r h ht
    exact get_by_id_of_sessionGet_some h ht
  · intro h
    simp [get_by_id, h]

theorem get_by_id_found_or_raises_witness :
    get_by_id (initSession [⟨1, 10, true⟩]) 1 = Except.ok ⟨1, 10, true⟩ ∧
    get_by_id (initSession [⟨1, 10, true⟩]) 9
      = Except.error (Err.recordNotFound 9) :=
  ⟨((get_by_id_found_or_raises (initSession [⟨1, 10, true⟩]) 1).1
      ⟨1, 10, true⟩ rfl rfl).1,
    (get_by_id_found_or_raises (initSession [⟨1, 10, true⟩]) 9).2 rfl⟩

/-- C10: `get_by_id` decides absence by Python truthiness of the looked-up
value (`if not record:`), not by a comparison with `None`: a record that is
present (the session lookup returns it) but evaluates as boolean-false makes
`get_by_id` raise `RecordNotFoundError` instead of returning the record. -/
theorem get_by_id_absence_by_truthiness (s : SessionState) (record_id : Nat)
    (r : Record) (h : sessionGet s record_id = some r)
    (hf : r.truthy = false) :
    get_by_id s record_id = Except.error (Err.recordNotFound record_id) := by
  simp [get_by_id, h, hf]

theorem get_by_id_absence_by_truthiness_witness :
    get_by_id (initSession [⟨2, 0, false⟩]) 2
      = Except.error (Err.recordNotFound 2) :=
  get_by_id_absence_by_truthiness (initSession [⟨2, 0, false⟩]) 2
    ⟨2, 0, false⟩ rfl rfl

/-- C5 counterexample: a record with key 2 is present in the store, yet
`delete` raises `RecordNotFoundError(2)` and stages nothing, because the
record evaluates as boolean-false and `delete` looks it up through
`get_by_id`, which tests truthiness. -/
theorem delete_present_falsy_raises :
    sessionGet (initSession [⟨2, 5, false⟩]) 2 = some ⟨2, 5, false⟩ ∧
    delete (initSession [⟨2, 5, false⟩]) 2
      = (initSession [⟨2, 5, false⟩], some (Err.recordNotFound 2)) :=
  ⟨rfl, rfl⟩

/-- C5 amended: when the lookup finds nothing, `delete` raises
`RecordNotFoundError` and leaves the session exactly as it was (no removal
staged); when a truthy record with the requested key is present (and no
insert staged on the session reuses that key, as primary-key uniqueness
guarantees at commit), `delete` stages its removal without touching the
committed store, and after a commit a fresh `get_by_id` for the same id
raises `RecordNotFoundError`. -/
theorem delete_stages_removal_or_raises (s : SessionState) (record_id : Nat) :
    (sessionGet s record_id = none →
      delete s record_id = (s, some (Err.recordNotFound record_id))) ∧
    (∀ r : Record, sessionGet s record_id = some r → r.truthy = true →
      (∀ x ∈ s.added, x.key ≠ record_id) →
      (delete s record_id).2 = none ∧
      (delete s record_id).1.db = s.db ∧
      (delete s record_id).1.deleted = s.deleted ++ [record_id] ∧
      get_by_id (initSession (commitApply (delete s record_id).1)) record_id
        = Except.error (Err.recordNotFound record_id)) := by
  constructor
  · intro h
    simp [delete, get_by_id, h]
  · intro r h ht hadd
    obtain ⟨hok, hk⟩ := get_by_id_of_sessionGet_some h ht
    have hdel : delete s record_id
        = ({ s with deleted := s.deleted ++ [record_id] }, none) := by
      simp [delete, hok, hk]
    have hnone : sessionGet
        (initSession (commitApply { s with deleted := s.deleted ++ [record_id] }))
        record_id = none := by
      simp only [sessionGet, initSession, commitApply, List.find?_eq_none,
        List.contains_nil, Bool.not_false, List.filter_true, List.mem_append,
        List.mem_filter, beq_iff_eq]
      rintro x (⟨hxdb, hxnd⟩ | hxadd)
      · intro hxk
        simp [hxk] at hxnd
      · exact hadd x hxadd
    rw [hdel]
    exact ⟨rfl, rfl, rfl, by simp [get_by_id, hnone]⟩

theorem delete_stages_removal_or_raises_witness :
    delete (initSession [⟨1, 10, true⟩]) 9
      = (initSession [⟨1, 10, true⟩], some (Err.recordNotFound 9)) ∧
    get_by_id
      (initSession (commitApply (delete (initSession [⟨1, 10, true⟩]) 1).1)) 1
      = Except.error (Err.recordNotFound 1) :=
  ⟨(delete_stages_removal_or_raises (initSession [⟨1, 10, true⟩]) 9).1 rfl,
    ((delete_stages_removal_or_raises (initSession [⟨1, 10, true⟩]) 1).2
      ⟨1, 10, true⟩ rfl rfl (by decide)).2.2.2⟩

/-- C8 counterexample: `add` of a record that evaluates as boolean-false does
return the same record, but the round-trip fails — after commit, a fresh
`get_by_id` with the new record's key raises `RecordNotFoundError(5)` instead
of returning the record, again because of the truthiness test in
`get_by_id`. -/
theorem add_round_trip_falsy_fails :
    (add (initSession []) ⟨5, 0, false⟩).2 = (⟨5, 0, false⟩ : Record) ∧
    get_by_id
      (initSession (commitApply (add (initSession []) ⟨5, 0, false⟩).1)) 5
      = Except.error (Err.recordNotFound 5) :=
  ⟨rfl, rfl⟩

/-- C8 amended: `add` stages the record for insertion on the session without
touching the committed store and returns the same record it was given; and
for a truthy record whose key is fresh (primary-key uniqueness), the
round-trip holds: add, then commit, then a fresh `get_by_id` with the new
record's key returns the very record that was added. -/
theorem add_stages_and_round_trip (db : List Record) (r : Record)
    (ht : r.truthy = true) (hfresh : ∀ x ∈ db, x.key ≠ r.key) :
    (add (initSession db) r).2 = r ∧
    (add (initSession db) r).1.db = db ∧
    (add (initSession db) r).1.added = [r] ∧
    get_by_id (initSession (commitApply (add (initSession db) r).1)) r.key
      = Except.ok r := by
  refine ⟨rfl, rfl, rfl, ?_⟩
  have hget : sessionGet
      (initSession (commitApply (add (initSession db) r).1)) r.key
      = some r := by
    simp only [add, commitApply, initSession, sessionGet, List.contains_nil,
      Bool.not_false, List.filter_true, List.nil_append]
    rw [List.find?_append]
    have h1 : db.find? (fun x => x.key == r.key) = none := by
      rw [List.find?_eq_none]
      intro x hx
      simpa using hfresh x hx
    rw [h1]
    simp
  simp [get_by_id, hget, ht]

theorem add_stages_and_round_trip_witness :
    (add (initSession [⟨1, 10, true⟩]) ⟨2, 20, true⟩).2
      = (⟨2, 20, true⟩ : Record) ∧
    get_by_id
      (initSession
        (commitApply (add (initSession [⟨1, 10, true⟩]) ⟨2, 20, true⟩).1)) 2
      = Except.ok ⟨2, 20, true⟩ :=
  ⟨(add_stages_and_round_trip [⟨1, 10, true⟩] ⟨2, 20, true⟩ rfl
      (by decide)).1,
    (add_stages_and_round_trip [⟨1, 10, true⟩] ⟨2, 20, true⟩ rfl
      (by decide)).2.2.2⟩

/-- C6: `list_all` returns a page of at most `limit` records: its length is
bounded by `limit`, its `i`-th element (for `i < limit`) is exactly the
committed store's `(skip + i)`-th record — the page after skipping the first
`skip` records, in insertion order — and on an empty store it returns the
empty list rather than an error. -/
theorem list_all_returns_page (s : SessionState) (skip limit : Nat) :
    (list_all s skip limit).length ≤ limit ∧
    (∀ i : Nat, i < limit →
      (list_all s skip limit)[i]? = s.db[skip + i]?) ∧
    (s.db = [] → list_all s skip limit = []) := by
  refine ⟨?_, ?_, ?_⟩
  · simp only [list_all]
    exact List.length_take_le _ _
  · intro i hi
    simp only [list_all]
    rw [List.getElem?_take_of_lt hi, List.getElem?_drop]
  · intro h
    simp [list_all, h]

theorem list_all_returns_page_witness :
    (list_all (initSession [⟨1, 1, true⟩, ⟨2, 2, true⟩, ⟨3, 3, true⟩]) 0 2).length
      ≤ 2 ∧
    (list_all (initSession [⟨1, 1, true⟩, ⟨2, 2, true⟩, ⟨3, 3, true⟩]) 2 2)[0]?
      = (initSession [⟨1, 1, true⟩, ⟨2, 2, true⟩, ⟨3, 3, true⟩]).db[2]? ∧
    list_all (initSession []) 0 100 = [] :=
  ⟨(list_all_returns_page
      (initSession [⟨1, 1, true⟩, ⟨2, 2, true⟩, ⟨3, 3, true⟩]) 0 2).1,
    (list_all_returns_page
      (initSession [⟨1, 1, true⟩, ⟨2, 2, true⟩, ⟨3, 3, true⟩]) 2 2).2.1 0
      (by decide),
    (list_all_returns_page (initSession []) 0 100).2.2 rfl⟩

/-- C7: over a store with distinct primary keys, `list_all(skip=0, limit=N)`
returns at most `N` records; the records returned with `skip=K` are disjoint
from the first `K` records returned with `skip=0` (for any limit `M ≥ K` of
that first call); and `list_all` returns the empty list whenever `skip`
exceeds the store's record count. -/
theorem list_all_pagination_non_overlap (s : SessionState) (K N M : Nat)
    (hnd : (s.db.map Record.key).Nodup) (hKM : K ≤ M) :
    (list_all s 0 N).length ≤ N ∧
    (∀ r ∈ list_all s K N, r ∉ (list_all s 0 M).take K) ∧
    (s.db.length < K → list_all s K N = []) := by
  refine ⟨?_, ?_, ?_⟩
  · simp only [list_all]
    exact List.length_take_le _ _
  · intro r hr hr'
    have hrdrop : r ∈ s.db.drop K := List.mem_of_mem_take hr
    have hrtake : r ∈ s.db.take K := by
      simp only [list_all, List.drop_zero, List.take_take,
        Nat.min_eq_left hKM] at hr'
      exact hr'
    have hnodup : s.db.Nodup := List.Nodup.of_map _ hnd
    have hdisj : List.Disjoint (s.db.take K) (s.db.drop K) :=
      (List.nodup_append.mp
        (by rw [List.take_append_drop]; exact hnodup)).2.2
    exact hdisj hrtake hrdrop
  · intro h
    simp only [list_all]
    rw [List.drop_eq_nil_of_le (Nat.le_of_lt h), List.take_nil]

theorem list_all_pagination_non_overlap_witness :
    (list_all (initSession [⟨1, 1, true⟩, ⟨2, 2, true⟩, ⟨3, 3, true⟩]) 0 2).length
      ≤ 2 ∧
    (⟨3, 3, true⟩ : Record)
      ∉ (list_all (initSession [⟨1, 1, true⟩, ⟨2, 2, true⟩, ⟨3, 3, true⟩]) 0 2).take 2 :=
  ⟨(list_all_pagination_non_overlap
      (initSession [⟨1, 1, true⟩, ⟨2, 2, true⟩, ⟨3, 3, true⟩]) 2 2 2
      (by decide) (by decide)).1,
    (list_all_pagination_non_overlap
      (initSession [⟨1, 1, true⟩, ⟨2, 2, true⟩, ⟨3, 3, true⟩]) 2 2 2
      (by decide) (by decide)).2.1 ⟨3, 3, true⟩ (by decide)⟩

end DbNexus
